import Mathlib

/-
  Shallow embedding of the weather lookup client in src/src/App.tsx.
  Network calls and device geolocation are modelled as oracle inputs:
  each handler becomes a pure function from the current application state
  and the oracle outcome to the final application state (the state after
  the async flow, including its finally block, has resolved).
-/

namespace WeatherNow

/-- A weather-code descriptor, the text and icon pair. -/
structure Descriptor where
  text : String
  icon : String
deriving DecidableEq

/-- The fallback descriptor returned by mapWeather for unknown or absent codes. -/
def unknownDescriptor : Descriptor := ⟨"Unknown", "❓"⟩

/-- WEATHER_CODE_MAP of App.tsx lines 4 to 18, as an association list. -/
def WEATHER_CODE_MAP : List (Int × Descriptor) :=
  [ (0, ⟨"Clear sky", "☀️"⟩)
  , (1, ⟨"Mainly clear", "🌤️"⟩)
  , (2, ⟨"Partly cloudy", "⛅"⟩)
  , (3, ⟨"Overcast", "☁️"⟩)
  , (45, ⟨"Fog", "🌫️"⟩)
  , (48, ⟨"Fog (rime)", "🌫️"⟩)
  , (51, ⟨"Light drizzle", "🌦️"⟩)
  , (61, ⟨"Slight rain", "🌧️"⟩)
  , (63, ⟨"Moderate rain", "🌧️"⟩)
  , (65, ⟨"Heavy rain", "⛈️"⟩)
  , (71, ⟨"Light snow", "❄️"⟩)
  , (80, ⟨"Showers", "🌧️"⟩)
  , (95, ⟨"Thunderstorm", "⛈️"⟩) ]

/-- mapWeather of App.tsx lines 20 to 23: a null or undefined code gives the
unknown descriptor, otherwise the table is consulted with the same fallback. -/
def mapWeather : Option Int → Descriptor
  | none => unknownDescriptor
  | some c => (WEATHER_CODE_MAP.lookup c).getD unknownDescriptor

/-- A geocoding result entry, per the shape read by the app. -/
structure LocationCandidate where
  name : String
  admin1 : Option String
  country : String
  latitude : Rat
  longitude : Rat
  population : Option Int
deriving DecidableEq

/-- The current_weather section of a forecast payload. -/
structure CurrentWeather where
  temperature : Rat
  windspeed : Rat
  winddirection : Rat
  weathercode : Option Int
  time : String
deriving DecidableEq

/-- The daily section of a forecast payload: parallel arrays. The time array
is optional because the rendering guards it with optional chaining. -/
structure DailyBlock where
  time : Option (List String)
  weathercode : List Int
  temperature_2m_max : List Rat
  temperature_2m_min : List Rat
deriving DecidableEq

/-- A parsed forecast payload. -/
structure ForecastData where
  current_weather : Option CurrentWeather
  daily : Option DailyBlock
  timezone : String
deriving DecidableEq

/-- The object stored by setWeather on success: the spread of the parsed
payload plus the placeName field. -/
structure Weather where
  data : ForecastData
  placeName : String
deriving DecidableEq

/-- The application state held by the six useState hooks. -/
structure AppState where
  query : String
  locations : List LocationCandidate
  loadingGeo : Bool
  loadingWeather : Bool
  weather : Option Weather
  error : Option String
deriving DecidableEq

/-- The initial state of the hooks at mount. -/
def initState : AppState :=
  { query := "", locations := [], loadingGeo := false, loadingWeather := false
  , weather := none, error := none }

/-- The res.ok predicate of the Fetch API: status in the 2xx range. -/
def httpOk (status : Nat) : Bool := 200 ≤ status && status < 300

/-- A parsed geocoding payload. -/
structure GeoData where
  results : Option (List LocationCandidate)
deriving DecidableEq

/-- Oracle outcome of the geocoding fetch: either the promise rejects with a
message, or a response arrives with a status and a body whose JSON parse
either fails with a message or yields a payload. -/
inductive GeoResponse where
  | reject (msg : String)
  | respond (status : Nat) (body : Except String GeoData)

/-- Oracle outcome of the forecast fetch: either the promise rejects with a
message, or a response arrives with a status and a body that parses to a
payload, none meaning JSON.parse threw. -/
inductive ForecastResponse where
  | reject (msg : String)
  | respond (status : Nat) (body : Option ForecastData)
deriving DecidableEq

/-- The trim method of JavaScript strings: drop leading and trailing
whitespace characters. Written over the character list so it is kernel
computable. -/
def jsTrim (s : String) : String :=
  String.mk (((s.data.dropWhile Char.isWhitespace).reverse.dropWhile
    Char.isWhitespace).reverse)

/-- searchCity of App.tsx lines 33 to 60, as a function of the state and the
network oracle. The Bool records whether a network call was issued. -/
def searchCity (s : AppState) (net : GeoResponse) : AppState × Bool :=
  if jsTrim s.query = "" then (s, false)
  else
    let s1 : AppState :=
      { s with error := none, locations := [], weather := none, loadingGeo := true }
    let s2 : AppState :=
      match net with
      | .reject m =>
          { s1 with error := some (if m = "" then "Failed to search location." else m) }
      | .respond status body =>
          if httpOk status then
            match body with
            | .error m =>
                { s1 with error := some (if m = "" then "Failed to search location." else m) }
            | .ok data =>
                match data.results with
                | none => { s1 with error := some "No matching locations found." }
                | some [] => { s1 with error := some "No matching locations found." }
                | some rs => { s1 with locations := rs }
          else
            { s1 with error := some "Geocoding failed" }
    ({ s2 with loadingGeo := false }, true)

/-- Number.prototype.toFixed with two digits, on rationals: round half up to
hundredths and print with exactly two decimals. -/
def toFixed2 (x : Rat) : String :=
  let n : Int := Int.floor (x * 100 + 1 / 2)
  let sign := if n < 0 then "-" else ""
  let m := n.natAbs
  let fr := m % 100
  sign ++ toString (m / 100) ++ "." ++ (if fr < 10 then "0" else "") ++ toString fr

/-- fetchWeatherByCoords of App.tsx lines 63 to 105, as a function of the
state, the arguments and the network oracle. -/
def fetchWeatherByCoords (s : AppState) (lat lon : Rat) (placeName : Option String)
    (net : ForecastResponse) : AppState :=
  let s1 : AppState :=
    { s with
      error := none, loadingWeather := true, weather := none, locations := [],
      query := placeName.getD (toFixed2 lat ++ ", " ++ toFixed2 lon) }
  let s2 : AppState :=
    match net with
    | .reject m =>
        { s1 with error := some (if m = "" then "Failed to fetch weather." else m) }
    | .respond status body =>
        if httpOk status then
          match body with
          | none => { s1 with error := some "Unexpected response format from API" }
          | some data =>
              match data.current_weather with
              | none => { s1 with error := some "Weather data not found in API response" }
              | some _ => { s1 with weather := some ⟨data, placeName.getD data.timezone⟩ }
        else
          { s1 with error := some ("Weather request failed with status " ++ toString status) }
  { s2 with loadingWeather := false }

/-- The composed label of App.tsx line 111: name, then comma and admin1 only
when admin1 is truthy, that is present and non-empty. -/
def composedLabel (loc : LocationCandidate) : String :=
  loc.name ++ (match loc.admin1 with
    | some a => if a = "" then "" else ", " ++ a
    | none => "")

/-- A label built from the words of the spec sentence: name, admin1 whenever
admin1 is present, otherwise name. Kept for comparison with composedLabel. -/
def specComposedLabel (loc : LocationCandidate) : String :=
  match loc.admin1 with
  | some a => loc.name ++ ", " ++ a
  | none => loc.name

/-- onSelectLocation of App.tsx lines 107 to 113. -/
def onSelectLocation (s : AppState) (loc : LocationCandidate)
    (net : ForecastResponse) : AppState :=
  fetchWeatherByCoords s loc.latitude loc.longitude (some (composedLabel loc)) net

/-- Oracle outcome of the device geolocation request in useMyLocation:
the capability may be missing, the position callback may fire with
coordinates (followed by a forecast fetch), or the error callback may fire. -/
inductive GeoLocOutcome where
  | unavailable
  | success (lat lon : Rat) (net : ForecastResponse)
  | failure (msg : String)
deriving DecidableEq

/-- useMyLocation of App.tsx lines 115 to 135. -/
def useMyLocation (s : AppState) (g : GeoLocOutcome) : AppState :=
  let s0 : AppState := { s with error := none }
  match g with
  | .unavailable => { s0 with error := some "Geolocation not available in your browser." }
  | .success lat lon net =>
      fetchWeatherByCoords { s0 with loadingWeather := true } lat lon
        (some "Your location") net
  | .failure m =>
      { s0 with
        loadingWeather := false,
        error := some ("Could not get location: " ++ m) }

/-- Math.round of JavaScript on rationals: half rounds toward positive. -/
def jsRound (x : Rat) : Int := Int.floor (x + 1 / 2)

/-- One row of the 3-day forecast panel as rendered. -/
structure DailyEntry where
  day : String
  condText : String
  tempMax : Option Int
  tempMin : Option Int
deriving DecidableEq

/-- The 3-day forecast list of App.tsx lines 260 to 278: the time array,
guarded by optional chaining, sliced to the first three entries and mapped
index by index over the parallel arrays. -/
def renderedDaily (w : Weather) : List DailyEntry :=
  match w.data.daily with
  | none => []
  | some d =>
      match d.time with
      | none => []
      | some times =>
          (times.take 3).enum.map (fun p =>
            ⟨p.2, (mapWeather (d.weathercode.get? p.1)).text
            , (d.temperature_2m_max.get? p.1).map jsRound
            , (d.temperature_2m_min.get? p.1).map jsRound⟩)

end WeatherNow

namespace WeatherNow

/-- Example current-conditions section used by concrete witnesses. -/
def exCW : CurrentWeather := ⟨25, 10, 180, some 2, "2026-10-11T10:00"⟩

/-- Example daily block with five entries used by concrete witnesses. -/
def exDaily5 : DailyBlock :=
  ⟨some ["d1", "d2", "d3", "d4", "d5"], [0, 1, 2, 3, 45], [30, 31, 32, 33, 34],
    [20, 21, 22, 23, 24]⟩

/-- Example forecast payload with five daily entries. -/
def exData5 : ForecastData := ⟨some exCW, some exDaily5, "Asia/Kolkata"⟩

/-- Example forecast payload lacking the current_weather section. -/
def exDataNoCW : ForecastData := ⟨none, some exDaily5, "Asia/Kolkata"⟩

/-- Example candidate whose admin1 is present but empty. -/
def locEmptyAdmin : LocationCandidate := ⟨"Springfield", some "", "US", 1, 2, none⟩

/-- Example candidate with a non-empty admin1. -/
def locLondon : LocationCandidate :=
  ⟨"London", some "Greater London", "UK", 5151 / 100, -13 / 100, some 8900000⟩

/-- Claim C2: the resolver returns the documented pair for every code of the
known set, and the unknown descriptor for any other code and for an absent
code. -/
theorem C2_resolver (c : Int)
    (h : c ∉ ([0, 1, 2, 3, 45, 48, 51, 61, 63, 65, 71, 80, 95] : List Int)) :
    mapWeather (some 0) = ⟨"Clear sky", "☀️"⟩ ∧
    mapWeather (some 1) = ⟨"Mainly clear", "🌤️"⟩ ∧
    mapWeather (some 2) = ⟨"Partly cloudy", "⛅"⟩ ∧
    mapWeather (some 3) = ⟨"Overcast", "☁️"⟩ ∧
    mapWeather (some 45) = ⟨"Fog", "🌫️"⟩ ∧
    mapWeather (some 48) = ⟨"Fog (rime)", "🌫️"⟩ ∧
    mapWeather (some 51) = ⟨"Light drizzle", "🌦️"⟩ ∧
    mapWeather (some 61) = ⟨"Slight rain", "🌧️"⟩ ∧
    mapWeather (some 63) = ⟨"Moderate rain", "🌧️"⟩ ∧
    mapWeather (some 65) = ⟨"Heavy rain", "⛈️"⟩ ∧
    mapWeather (some 71) = ⟨"Light snow", "❄️"⟩ ∧
    mapWeather (some 80) = ⟨"Showers", "🌧️"⟩ ∧
    mapWeather (some 95) = ⟨"Thunderstorm", "⛈️"⟩ ∧
    mapWeather none = ⟨"Unknown", "❓"⟩ ∧
    mapWeather (some c) = ⟨"Unknown", "❓"⟩ := by
  simp only [List.mem_cons, List.not_mem_nil, or_false, not_or] at h
  obtain ⟨h0, h1, h2, h3, h45, h48, h51, h61, h63, h65, h71, h80, h95⟩ := h
  refine ⟨by decide, by decide, by decide, by decide, by decide, by decide, by decide,
    by decide, by decide, by decide, by decide, by decide, by decide, by decide, ?_⟩
  have e0 : (c == (0 : Int)) = false := beq_eq_false_iff_ne.mpr h0
  have e1 : (c == (1 : Int)) = false := beq_eq_false_iff_ne.mpr h1
  have e2 : (c == (2 : Int)) = false := beq_eq_false_iff_ne.mpr h2
  have e3 : (c == (3 : Int)) = false := beq_eq_false_iff_ne.mpr h3
  have e45 : (c == (45 : Int)) = false := beq_eq_false_iff_ne.mpr h45
  have e48 : (c == (48 : Int)) = false := beq_eq_false_iff_ne.mpr h48
  have e51 : (c == (51 : Int)) = false := beq_eq_false_iff_ne.mpr h51
  have e61 : (c == (61 : Int)) = false := beq_eq_false_iff_ne.mpr h61
  have e63 : (c == (63 : Int)) = false := beq_eq_false_iff_ne.mpr h63
  have e65 : (c == (65 : Int)) = false := beq_eq_false_iff_ne.mpr h65
  have e71 : (c == (71 : Int)) = false := beq_eq_false_iff_ne.mpr h71
  have e80 : (c == (80 : Int)) = false := beq_eq_false_iff_ne.mpr h80
  have e95 : (c == (95 : Int)) = false := beq_eq_false_iff_ne.mpr h95
  simp [mapWeather, WEATHER_CODE_MAP, List.lookup, unknownDescriptor,
    e0, e1, e2, e3, e45, e48, e51, e61, e63, e65, e71, e80, e95]

/-- Witness for C2 at the out-of-table code 7. -/
theorem C2_witness :
    mapWeather (some 0) = ⟨"Clear sky", "☀️"⟩ ∧
    mapWeather (some 1) = ⟨"Mainly clear", "🌤️"⟩ ∧
    mapWeather (some 2) = ⟨"Partly cloudy", "⛅"⟩ ∧
    mapWeather (some 3) = ⟨"Overcast", "☁️"⟩ ∧
    mapWeather (some 45) = ⟨"Fog", "🌫️"⟩ ∧
    mapWeather (some 48) = ⟨"Fog (rime)", "🌫️"⟩ ∧
    mapWeather (some 51) = ⟨"Light drizzle", "🌦️"⟩ ∧
    mapWeather (some 61) = ⟨"Slight rain", "🌧️"⟩ ∧
    mapWeather (some 63) = ⟨"Moderate rain", "🌧️"⟩ ∧
    mapWeather (some 65) = ⟨"Heavy rain", "⛈️"⟩ ∧
    mapWeather (some 71) = ⟨"Light snow", "❄️"⟩ ∧
    mapWeather (some 80) = ⟨"Showers", "🌧️"⟩ ∧
    mapWeather (some 95) = ⟨"Thunderstorm", "⛈️"⟩ ∧
    mapWeather none = ⟨"Unknown", "❓"⟩ ∧
    mapWeather (some 7) = ⟨"Unknown", "❓"⟩ :=
  C2_resolver 7 (by decide)

/-- Claim C3: a query that trims to empty makes searchCity perform no network
call and leave the whole state unchanged. -/
theorem C3_emptyQuery_noop (s : AppState) (net : GeoResponse)
    (h : jsTrim s.query = "") :
    searchCity s net = (s, false) := by
  simp [searchCity, h]

/-- Witness for C3 at a whitespace-only query. -/
theorem C3_witness :
    searchCity { initState with query := "   " } (.respond 200 (.ok ⟨none⟩))
      = ({ initState with query := "   " }, false) :=
  C3_emptyQuery_noop _ _ (by decide)

/-- Claim C4: a successful geocoding response with absent or empty results
leaves an empty candidate list and the no-matching-locations message. -/
theorem C4_noResults (s : AppState) (status : Nat)
    (res : Option (List LocationCandidate))
    (hq : jsTrim s.query ≠ "") (hok : httpOk status = true)
    (hres : res = none ∨ res = some []) :
    (searchCity s (.respond status (.ok ⟨res⟩))).1.locations = [] ∧
    (searchCity s (.respond status (.ok ⟨res⟩))).1.error
      = some "No matching locations found." := by
  rcases hres with rfl | rfl <;> simp [searchCity, hq, hok]

/-- Witness for C4 at query London, status 200 and absent results. -/
theorem C4_witness :
    (searchCity { initState with query := "London" }
      (.respond 200 (.ok ⟨none⟩))).1.locations = [] ∧
    (searchCity { initState with query := "London" }
      (.respond 200 (.ok ⟨none⟩))).1.error
      = some "No matching locations found." :=
  C4_noResults { initState with query := "London" } 200 none (by decide) (by decide) (Or.inl rfl)

/-- Claim C5: a parsed forecast payload lacking current_weather makes
fetchWeatherByCoords fail with the data-not-found message and set no
weather snapshot. -/
theorem C5_missingCurrent (s : AppState) (lat lon : Rat) (hint : Option String)
    (status : Nat) (data : ForecastData)
    (hok : httpOk status = true) (hcw : data.current_weather = none) :
    (fetchWeatherByCoords s lat lon hint (.respond status (some data))).error
      = some "Weather data not found in API response" ∧
    (fetchWeatherByCoords s lat lon hint (.respond status (some data))).weather
      = none := by
  simp [fetchWeatherByCoords, hok, hcw]

/-- Witness for C5 at a concrete payload without current_weather. -/
theorem C5_witness :
    (fetchWeatherByCoords initState 1 2 (some "X")
      (.respond 200 (some exDataNoCW))).error
      = some "Weather data not found in API response" ∧
    (fetchWeatherByCoords initState 1 2 (some "X")
      (.respond 200 (some exDataNoCW))).weather = none :=
  C5_missingCurrent initState 1 2 (some "X") 200 exDataNoCW (by decide) rfl

/-- Claim C6: a non-2xx forecast status S fails with the message naming S and
sets no weather snapshot. -/
theorem C6_httpFailure (s : AppState) (lat lon : Rat) (hint : Option String)
    (status : Nat) (body : Option ForecastData)
    (hbad : httpOk status = false) :
    (fetchWeatherByCoords s lat lon hint (.respond status body)).error
      = some ("Weather request failed with status " ++ toString status) ∧
    (fetchWeatherByCoords s lat lon hint (.respond status body)).weather
      = none := by
  simp [fetchWeatherByCoords, hbad]

/-- Witness for C6 at status 500. -/
theorem C6_witness :
    (fetchWeatherByCoords initState 1 2 (some "X") (.respond 500 none)).error
      = some "Weather request failed with status 500" ∧
    (fetchWeatherByCoords initState 1 2 (some "X") (.respond 500 none)).weather
      = none := by
  have h := C6_httpFailure initState 1 2 (some "X") 500 none (by decide)
  simpa using h

/-- Claim C7: on success the stored placeName is the hint when provided and
the API timezone otherwise. -/
theorem C7_placeName (s : AppState) (lat lon : Rat) (hint : Option String)
    (status : Nat) (data : ForecastData)
    (hok : httpOk status = true) (hcw : data.current_weather.isSome = true) :
    (fetchWeatherByCoords s lat lon hint (.respond status (some data))).weather
      = some ⟨data, hint.getD data.timezone⟩ ∧
    (∀ h, hint = some h →
      ((fetchWeatherByCoords s lat lon hint
        (.respond status (some data))).weather.map Weather.placeName)
        = some h) ∧
    (hint = none →
      ((fetchWeatherByCoords s lat lon hint
        (.respond status (some data))).weather.map Weather.placeName)
        = some data.timezone) := by
  obtain ⟨cw, hcw'⟩ := Option.isSome_iff_exists.mp hcw
  refine ⟨by simp [fetchWeatherByCoords, hok, hcw'], ?_, ?_⟩
  · rintro h rfl
    simp [fetchWeatherByCoords, hok, hcw']
  · rintro rfl
    simp [fetchWeatherByCoords, hok, hcw']

/-- Witness for C7 with a hint and with no hint. -/
theorem C7_witness :
    (fetchWeatherByCoords initState 1 2 (some "London")
      (.respond 200 (some exData5))).weather
      = some ⟨exData5, (some "London").getD exData5.timezone⟩ ∧
    (∀ h, (some "London" : Option String) = some h →
      ((fetchWeatherByCoords initState 1 2 (some "London")
        (.respond 200 (some exData5))).weather.map Weather.placeName)
        = some h) ∧
    ((some "London" : Option String) = none →
      ((fetchWeatherByCoords initState 1 2 (some "London")
        (.respond 200 (some exData5))).weather.map Weather.placeName)
        = some exData5.timezone) :=
  C7_placeName initState 1 2 (some "London") 200 exData5 (by decide) rfl

/-- Counterexample for C8: a candidate whose admin1 is present but empty
gets the label name alone, not the name-comma-admin1 form the claim states
for every present admin1. -/
theorem C8_counterexample :
    ((onSelectLocation initState locEmptyAdmin
      (.respond 200 (some exData5))).weather.map Weather.placeName)
      = some (composedLabel locEmptyAdmin) ∧
    composedLabel locEmptyAdmin = "Springfield" ∧
    specComposedLabel locEmptyAdmin = "Springfield, " ∧
    composedLabel locEmptyAdmin ≠ specComposedLabel locEmptyAdmin := by
  refine ⟨rfl, rfl, rfl, ?_⟩
  decide

/-- Claim C8 as amended: selecting a candidate invokes the forecast fetch
with exactly the candidate coordinates and the composed label, sets the query
text to that label, and on success empties the candidate list and stores the
snapshot with that label as placeName; the composed label is name, admin1
when admin1 is present and non-empty, and name alone otherwise. -/
theorem C8_amended (s : AppState) (loc : LocationCandidate) (status : Nat)
    (data : ForecastData)
    (hok : httpOk status = true) (hcw : data.current_weather.isSome = true) :
    onSelectLocation s loc (.respond status (some data))
      = fetchWeatherByCoords s loc.latitude loc.longitude
          (some (composedLabel loc)) (.respond status (some data)) ∧
    (onSelectLocation s loc (.respond status (some data))).query
      = composedLabel loc ∧
    (onSelectLocation s loc (.respond status (some data))).locations = [] ∧
    (onSelectLocation s loc (.respond status (some data))).weather
      = some ⟨data, composedLabel loc⟩ ∧
    (loc.admin1 = none → composedLabel loc = loc.name) ∧
    (∀ a, loc.admin1 = some a → a ≠ "" →
      composedLabel loc = loc.name ++ ", " ++ a) ∧
    (loc.admin1 = some "" → composedLabel loc = loc.name) := by
  obtain ⟨cw, hcw'⟩ := Option.isSome_iff_exists.mp hcw
  refine ⟨rfl, ?_, ?_, ?_, ?_, ?_, ?_⟩
  · simp [onSelectLocation, fetchWeatherByCoords, hok, hcw']
  · simp [onSelectLocation, fetchWeatherByCoords, hok, hcw']
  · simp [onSelectLocation, fetchWeatherByCoords, hok, hcw']
  · intro h
    simp [composedLabel, h]
  · intro a h ha
    simp [composedLabel, h, ha, String.append_assoc]
  · intro h
    simp [composedLabel, h]

/-- Witness for C8 at the London candidate with a success response. -/
theorem C8_witness :
    onSelectLocation initState locLondon (.respond 200 (some exData5))
      = fetchWeatherByCoords initState locLondon.latitude locLondon.longitude
          (some (composedLabel locLondon)) (.respond 200 (some exData5)) ∧
    (onSelectLocation initState locLondon
      (.respond 200 (some exData5))).query = composedLabel locLondon ∧
    (onSelectLocation initState locLondon
      (.respond 200 (some exData5))).locations = [] ∧
    (onSelectLocation initState locLondon
      (.respond 200 (some exData5))).weather
      = some ⟨exData5, composedLabel locLondon⟩ ∧
    (locLondon.admin1 = none → composedLabel locLondon = locLondon.name) ∧
    (∀ a, locLondon.admin1 = some a → a ≠ "" →
      composedLabel locLondon = locLondon.name ++ ", " ++ a) ∧
    (locLondon.admin1 = some "" → composedLabel locLondon = locLondon.name) :=
  C8_amended initState locLondon 200 exData5 (by decide) rfl

/-- Claim C9: a device geolocation failure with message m leaves the weather
loading flag false and sets the error to the could-not-get-location message;
a missing geolocation capability sets the capability error immediately, with
the loading flag and the rest of the state untouched. -/
theorem C9_geolocation (s : AppState) (m : String) :
    (useMyLocation s (.failure m)).loadingWeather = false ∧
    (useMyLocation s (.failure m)).error
      = some ("Could not get location: " ++ m) ∧
    (useMyLocation s .unavailable).error
      = some "Geolocation not available in your browser." ∧
    (useMyLocation s .unavailable).loadingWeather = s.loadingWeather ∧
    (useMyLocation s .unavailable).weather = s.weather ∧
    (useMyLocation s .unavailable).locations = s.locations ∧
    (useMyLocation s .unavailable).query = s.query := by
  simp [useMyLocation]

/-- Claim C10: after a search with a non-blank query resolves, whatever the
outcome, loadingGeo is false; after any forecast fetch resolves, whatever the
outcome, loadingWeather is false. -/
theorem C10_loadingCleared (s t : AppState) (gnet : GeoResponse)
    (lat lon : Rat) (hint : Option String) (fnet : ForecastResponse)
    (hq : jsTrim s.query ≠ "") :
    (searchCity s gnet).1.loadingGeo = false ∧
    (fetchWeatherByCoords t lat lon hint fnet).loadingWeather = false := by
  constructor
  · simp [searchCity, hq]
  · simp [fetchWeatherByCoords]

/-- Witness for C10 at a concrete failed search and failed fetch. -/
theorem C10_witness :
    (searchCity { initState with query := "London" } (.respond 500
      (.ok ⟨none⟩))).1.loadingGeo = false ∧
    (fetchWeatherByCoords initState 1 2 (some "X")
      (.respond 500 none)).loadingWeather = false :=
  C10_loadingCleared { initState with query := "London" } initState
    (.respond 500 (.ok ⟨none⟩)) 1 2 (some "X") (.respond 500 none) (by decide)

/-- Counterexample for C1: with a five-entry daily.time, the snapshot stored
in state by setWeather keeps all five entries; the stored daily sequence does
not have exactly 3 entries. -/
theorem C1_counterexample :
    ((fetchWeatherByCoords initState 1 2 (some "X")
      (.respond 200 (some exData5))).weather.map
      (fun w => w.data.daily.map (fun d => (d.time.getD []).length)))
      = some (some 5) ∧
    ¬ ((fetchWeatherByCoords initState 1 2 (some "X")
      (.respond 200 (some exData5))).weather.map
      (fun w => w.data.daily.map (fun d => (d.time.getD []).length)))
      = some (some 3) := by
  refine ⟨rfl, ?_⟩
  have e : ((fetchWeatherByCoords initState 1 2 (some "X")
      (.respond 200 (some exData5))).weather.map
      (fun w => w.data.daily.map (fun d => (d.time.getD []).length)))
      = some (some 5) := rfl
  rw [e]
  simp

/-- Claim C1 as amended: the snapshot stored in state keeps the full daily
data; the daily sequence of the rendered 3-day forecast derived from it has
exactly 3 entries whenever daily.time has at least 3, kept in the upstream
order with no re-sorting. -/
theorem C1_amended (s : AppState) (lat lon : Rat) (hint : Option String)
    (status : Nat) (data : ForecastData) (d : DailyBlock) (times : List String)
    (hok : httpOk status = true) (hcw : data.current_weather.isSome = true)
    (hd : data.daily = some d) (ht : d.time = some times)
    (hlen : 3 ≤ times.length) :
    (fetchWeatherByCoords s lat lon hint (.respond status (some data))).weather
      = some ⟨data, hint.getD data.timezone⟩ ∧
    (renderedDaily ⟨data, hint.getD data.timezone⟩).length = 3 ∧
    (renderedDaily ⟨data, hint.getD data.timezone⟩).map DailyEntry.day
      = times.take 3 := by
  obtain ⟨cw, hcw'⟩ := Option.isSome_iff_exists.mp hcw
  refine ⟨by simp [fetchWeatherByCoords, hok, hcw'], ?_, ?_⟩
  · simp [renderedDaily, hd, ht]
    omega
  · simp only [renderedDaily, hd, ht, List.map_map]
    have e2 : (DailyEntry.day ∘ fun p : Nat × String =>
        (⟨p.2, (mapWeather (d.weathercode.get? p.1)).text,
          (d.temperature_2m_max.get? p.1).map jsRound,
          (d.temperature_2m_min.get? p.1).map jsRound⟩ : DailyEntry))
        = Prod.snd := rfl
    rw [e2, List.enum_map_snd]

/-- Witness for C1 at the five-entry payload. -/
theorem C1_witness :
    (fetchWeatherByCoords initState 1 2 (some "X")
      (.respond 200 (some exData5))).weather
      = some ⟨exData5, (some "X").getD exData5.timezone⟩ ∧
    (renderedDaily ⟨exData5, (some "X").getD exData5.timezone⟩).length = 3 ∧
    (renderedDaily ⟨exData5, (some "X").getD exData5.timezone⟩).map
      DailyEntry.day = ["d1", "d2", "d3", "d4", "d5"].take 3 :=
  C1_amended initState 1 2 (some "X") 200 exData5 exDaily5
    ["d1", "d2", "d3", "d4", "d5"] (by decide) rfl rfl rfl (by decide)

end WeatherNow
